import Mathlib

/-!
Verification of `auth_backends/adfs/turku.py` (the `TurkuADFS` SAML backend).

The module is a thin SAML adapter: it filters IdP signing certificates by
validity, caches remote IdP metadata, resolves a single fixed identity
provider, and extracts a permanent user identifier from SAML assertion
attributes.  We embed the module's functions shallowly: Python dicts become
association lists over `String` keys, Python runtime values become `PyValue`,
raised exceptions become `Except PyError` results, and the wall-clock
(`datetime.utcnow()`) becomes an explicit `Int` parameter.
-/

set_option autoImplicit false

namespace TurkuAdfs

/-- A scalar Python runtime value: `None`, a boolean, an integer or a
string. -/
inductive PyScalar where
  | none
  | bool (b : Bool)
  | int (n : Int)
  | str (s : String)
  deriving DecidableEq, Repr

/-- A Python runtime value, restricted to the shapes this module handles:
scalars, and lists or tuples of scalars (SAML attribute values are lists of
strings; the security flags are booleans and a one-element tuple). -/
inductive PyValue where
  | scalar (a : PyScalar)
  | list (xs : List PyScalar)
  | tuple (xs : List PyScalar)
  deriving DecidableEq, Repr

/-- Python truthiness (`bool(v)`) on scalars: `None`, `False`, `0` and the
empty string are falsy. -/
def pyScalarTruthy : PyScalar → Bool
  | .none => false
  | .bool b => b
  | .int n => n != 0
  | .str s => s != ""

/-- Python truthiness (`bool(v)`): a container is truthy iff non-empty. -/
def pyTruthy : PyValue → Bool
  | .scalar a => pyScalarTruthy a
  | .list xs => !xs.isEmpty
  | .tuple xs => !xs.isEmpty

/-- Exceptions this module can raise.  `nameError` models Python's
`NameError` for an undefined name, `indexError` models `IndexError`,
`exception` models a bare `Exception(msg)`, and `noAssociatedOID` models the
module's own `NoAssociatedOID` class (turku.py lines 20-21). -/
inductive PyError where
  | nameError (n : String)
  | indexError
  | exception (msg : String)
  | noAssociatedOID
  deriving DecidableEq, Repr

/-- Modelled from the spec: `FriendlySocialAuthException` is defined in
`tunnistamo/exceptions.py`, which is outside the provided sources (turku.py
line 14 only imports it).  Per the spec it is the class of "friendly,
localized errors" used to abort a login gracefully.  In the module itself,
`NoAssociatedOID` subclasses it (turku.py line 20); a bare `Exception`, a
`NameError` or an `IndexError` is not an instance of it. -/
def isFriendly : PyError → Bool
  | .noAssociatedOID => true
  | _ => false

/-- Python dict lookup `d.get(k)` on an association list (a Python dict has
at most one binding per key, which the first match models). -/
def dictGet {α : Type} : List (String × α) → String → Option α
  | [], _ => Option.none
  | (k', v) :: rest, k => if k' = k then some v else dictGet rest k

/-- Python dict assignment `d[k] = v`: replace the binding in place if the
key is present, otherwise append it. -/
def dictSet {α : Type} : List (String × α) → String → α → List (String × α)
  | [], k, v => [(k, v)]
  | (k', v') :: rest, k, v =>
      if k' = k then (k, v) :: rest else (k', v') :: dictSet rest k v

/-- An X.509 certificate as seen by this module: only the two validity
bounds are inspected (`cert.not_valid_before`; `not_valid_after` is the
expiry bound the `cryptography` library also exposes).  Timestamps are
modelled as integers, with `datetime` comparison becoming `Int` order. -/
structure Certificate where
  not_valid_before : Int
  not_valid_after : Int
  deriving DecidableEq, Repr

/-- The slice of the parsed IdP metadata dict that the module reads:
`idp['entityId']`, `idp['singleSignOnService']['url']`, and
`idp['x509certMulti']['signing' / 'encryption']` (lists of base64
certificate strings). -/
structure IdpXml where
  entityId : String
  ssoUrl : String
  signing : List String
  encryption : List String
  deriving DecidableEq, Repr

/-- The dict `{'signing': ..., 'encryption': ...}` returned by
`find_valid_certificates`. -/
structure CertMulti where
  signing : List String
  encryption : List String
  deriving DecidableEq, Repr

/-- The module-scope binding of the name `load_pem_x509_certificate` in
turku.py.  The imports (lines 1-14) bind `base64`, `logging`, `json`,
`datetime`, `x509`, `default_backend`, `cache`, `cached_property`, `_`,
`OneLogin_Saml2_IdPMetadataParser`, `SAMLAuth`, `SAMLIdentityProvider` and
`FriendlySocialAuthException` - but never `load_pem_x509_certificate`, so
looking the name up yields no function and evaluating it raises
`NameError`.  An `Option`-valued binding makes this explicit; supplying
`some parse` instead models the external
`cryptography.x509.load_pem_x509_certificate` being in scope, with `parse`
the (abstract) PEM parser of that library. -/
def moduleScopeLoadPemX509Certificate : Option (String → Certificate) :=
  Option.none

/-- The `for cert_b64 in idp['x509certMulti']['signing']` loop of
`find_valid_certificates` (turku.py lines 39-44): each iteration first
evaluates the name `load_pem_x509_certificate` (a `NameError` if unbound),
then skips the certificate when `now < cert.not_valid_before` and otherwise
appends `cert_b64` to the accumulator. -/
def findValidCertificatesLoop (loadPem : Option (String → Certificate)) (now : Int) :
    List String → List String → Except PyError (List String)
  | [], acc => .ok acc
  | cert_b64 :: rest, acc =>
      match loadPem with
      | Option.none => .error (.nameError ("load_pem_x509_certificate"))
      | some parse =>
          let cert := parse cert_b64
          if now < cert.not_valid_before then
            findValidCertificatesLoop loadPem now rest acc
          else
            findValidCertificatesLoop loadPem now rest (acc ++ [cert_b64])

/-- `TurkuADFS.find_valid_certificates` (turku.py lines 35-51): filter the
signing certificates through the loop, raise
`Exception('No valid X.509 certificates found in SAML2 metadata')` when none
survive, otherwise write the filtered list back into the `idp` dict and
return the `{'signing', 'encryption'}` dict.  The returned pair carries the
result dict and the mutated `idp`. -/
def find_valid_certificates (loadPem : Option (String → Certificate)) (now : Int)
    (idp : IdpXml) : Except PyError (CertMulti × IdpXml) :=
  match findValidCertificatesLoop loadPem now idp.signing [] with
  | .error e => .error e
  | .ok certificates =>
      if certificates.isEmpty then
        .error (.exception ("No valid X.509 certificates found in SAML2 metadata"))
      else
        let idp2 := { idp with signing := certificates }
        .ok ({ signing := certificates, encryption := idp2.encryption }, idp2)

/-- The fixed backend name `TurkuADFS.name` (turku.py line 25). -/
def turku_adfs_name : String := "turku_adfs"

/-- The cache key `'%s-idp-metadata' % self.name` (turku.py line 57). -/
def turku_cache_key : String := "turku_adfs-idp-metadata"

/-- The parsed remote metadata document (`idp_config`): the onelogin parser
returns a dict whose `'idp'` entry is the IdP description; only that entry
is read and cached by the module. -/
structure IdpConfigDoc where
  idp : IdpXml
  deriving DecidableEq, Repr

/-- A Django cache entry for the metadata key.  `value` is the JSON-encoded
`idp_config` (the JSON round-trip `json.loads (json.dumps x) = x` is taken
as identity, so the decoded document is stored directly).  `expiry` is the
absolute time at which the entry times out (`cache.set` with `timeout=t` at
time `now` gives `expiry = now + t`).  `fetchedAt` is ghost provenance, not
part of the real cache value: it records when the stored document was
fetched from the remote endpoint, and exists only to state freshness
properties. -/
structure CacheEntry where
  value : IdpConfigDoc
  fetchedAt : Int
  expiry : Int
  deriving DecidableEq, Repr

/-- The Django cache, restricted to string keys and metadata entries. -/
abbrev CacheState : Type := List (String × CacheEntry)

/-- Django `cache.get(key)` at time `now`: a stored entry is returned only
while the current time is before its expiry; an expired or absent entry
reads as `None`. -/
def cache_get (st : CacheState) (k : String) (now : Int) : Option CacheEntry :=
  match dictGet st k with
  | some e => if now < e.expiry then some e else Option.none
  | Option.none => Option.none

/-- Django `cache.set(key, value, timeout)` (absolute-expiry form). -/
def cache_set (st : CacheState) (k : String) (e : CacheEntry) : CacheState :=
  dictSet st k e

/-- The dict built and returned by `remote_metadata` (turku.py lines
68-72). -/
structure MetadataOut where
  entity_id : String
  url : String
  x509certMulti : CertMulti
  deriving DecidableEq, Repr

/-- The observable outcome of one `remote_metadata` evaluation: the returned
dict, whether the remote URL was contacted (`parse_remote` called), the
ghost fetch time of the served document, and the cache state afterwards. -/
structure RemoteMetadataResult where
  out : MetadataOut
  contactedRemote : Bool
  servedFetchedAt : Int
  newState : CacheState
  deriving Repr

/-- `TurkuADFS.remote_metadata` (turku.py lines 53-75) at time `now`.
`remoteDoc` stands for the document `OneLogin_Saml2_IdPMetadataParser
.parse_remote(self.metadata_url)` would return; it is consulted exactly
when the cache lookup misses.  After filtering the certificates (which
mutates `idp_config['idp']['x509certMulti']['signing']`, line 49), the
document is re-stored under the same key with `timeout=24 * 3600` - note
this happens on every evaluation, cache hit or miss. -/
def remote_metadata (loadPem : Option (String → Certificate)) (now : Int)
    (remoteDoc : IdpConfigDoc) (st : CacheState) :
    Except PyError RemoteMetadataResult :=
  let cached := cache_get st turku_cache_key now
  let idp_config : IdpConfigDoc :=
    match cached with
    | some e => e.value
    | Option.none => remoteDoc
  let contacted : Bool := cached.isNone
  let fetchedAt : Int :=
    match cached with
    | some e => e.fetchedAt
    | Option.none => now
  match find_valid_certificates loadPem now idp_config.idp with
  | .error e => .error e
  | .ok (certMulti, idp2) =>
      let out : MetadataOut :=
        { entity_id := idp2.entityId, url := idp2.ssoUrl, x509certMulti := certMulti }
      let st2 := cache_set st turku_cache_key
        { value := { idp := idp2 }, fetchedAt := fetchedAt, expiry := now + 24 * 3600 }
      .ok { out := out, contactedRemote := contacted,
            servedFetchedAt := fetchedAt, newState := st2 }

/-- The object `SAMLIdentityProvider(idp_name, **idp_config)` built by
`get_idp`: the social_core class stores the keyword arguments as its
configuration dict (`idp.conf`). -/
structure SAMLIdentityProvider where
  name : String
  conf : List (String × PyValue)
  deriving DecidableEq, Repr

/-- The permanent-identifier claim URI assigned at turku.py line 89. -/
def attr_user_permanent_id_uri : String :=
  "http://schemas.microsoft.com/ws/2013/11/alternateloginid"

/-- The email claim URI assigned at turku.py line 90. -/
def attr_email_uri : String :=
  "http://schemas.xmlsoap.org/ws/2005/05/identity/claims/emailaddress"

/-- The full-name claim URI assigned at turku.py line 91. -/
def attr_full_name_uri : String :=
  "http://schemas.xmlsoap.org/claims/CommonName"

/-- The first-name claim URI assigned at turku.py line 92. -/
def attr_first_name_uri : String :=
  "http://schemas.xmlsoap.org/ws/2005/05/identity/claims/givenname"

/-- The last-name claim URI assigned at turku.py line 93. -/
def attr_last_name_uri : String :=
  "http://schemas.xmlsoap.org/ws/2005/05/identity/claims/surname"

/-- The name check at the head of `get_idp` (turku.py lines 78-81): `None`
means `self.name`, the backend's own name passes through, and any other
name raises `Exception('Only IDP name allowed is %s' % self.name)`. -/
def resolveIdpName (idp_name : Option String) : Except PyError String :=
  match idp_name with
  | Option.none => Except.ok turku_adfs_name
  | some n =>
      if n = turku_adfs_name then Except.ok n
      else Except.error (PyError.exception ("Only IDP name allowed is turku_adfs"))

/-- The five claim-URI assignments of `get_idp` (turku.py lines 89-93),
written into the chosen configuration dict in source order. -/
def applyAttrDefaults (idp_config : List (String × PyValue)) : List (String × PyValue) :=
  let c1 := dictSet idp_config ("attr_user_permanent_id")
    (.scalar (.str attr_user_permanent_id_uri))
  let c2 := dictSet c1 ("attr_email") (.scalar (.str attr_email_uri))
  let c3 := dictSet c2 ("attr_full_name") (.scalar (.str attr_full_name_uri))
  let c4 := dictSet c3 ("attr_first_name") (.scalar (.str attr_first_name_uri))
  let c5 := dictSet c4 ("attr_last_name") (.scalar (.str attr_last_name_uri))
  c5

/-- `TurkuADFS.get_idp` (turku.py lines 77-95).  `enabled_idps` is the
`ENABLED_IDPS` setting (name to configuration dict); `remote_md` stands for
the outcome of evaluating `self.remote_metadata` rendered as a
configuration dict, used when the name is not among the enabled IdPs.
After the name check, the five profile claim URIs are assigned into the
chosen configuration dict and the provider object is built. -/
def get_idp (enabled_idps : List (String × List (String × PyValue)))
    (remote_md : Except PyError (List (String × PyValue)))
    (idp_name : Option String) : Except PyError SAMLIdentityProvider :=
  match resolveIdpName idp_name with
  | .error e => .error e
  | .ok name =>
      match (match dictGet enabled_idps name with
             | Option.none => remote_md
             | some cfg => Except.ok cfg) with
      | .error e => .error e
      | .ok idp_config => .ok { name := name, conf := applyAttrDefaults idp_config }

/-- `TurkuADFS.get_allowed_idp_name` (turku.py lines 97-98): the backend
name, whatever the request. -/
def get_allowed_idp_name {Request : Type} (_r : Request) : String :=
  turku_adfs_name

/-- The `uid = uid[0]` unwrapping step of `get_user_id` (turku.py lines
109-110): only a list is unwrapped, and indexing an empty list raises
`IndexError`. -/
def uidUnwrap : PyValue → Except PyError PyValue
  | .list [] => .error .indexError
  | .list (x :: _) => .ok (.scalar x)
  | v => .ok v

/-- The `if not uid or not isinstance(uid, str)` check of `get_user_id`
(turku.py lines 111-113): a non-string or an empty string raises
`NoAssociatedOID`; a non-empty string is returned. -/
def uidCheck : PyValue → Except PyError String
  | .scalar (.str s) => if s = "" then .error .noAssociatedOID else .ok s
  | _ => .error .noAssociatedOID

/-- The lookup `attrs.get(idp.conf['attr_user_permanent_id'])` of
`get_user_id` (turku.py line 108): `get_idp` always sets that
configuration key to `attr_user_permanent_id_uri` (line 89), and
`dict.get` yields `None` when the key is absent. -/
def rawUid (attrs : List (String × PyValue)) : PyValue :=
  (dictGet attrs attr_user_permanent_id_uri).getD (PyValue.scalar .none)

/-- `TurkuADFS.get_user_id` (turku.py lines 100-114).  The method returns
`uid` itself, without the `'turku_adfs:'` prefix the superclass would
prepend. -/
def get_user_id (attrs : List (String × PyValue)) : Except PyError String :=
  match uidUnwrap (rawUid attrs) with
  | .error e => .error e
  | .ok uid2 => uidCheck uid2

/-- The settings dict produced by the superclass
`SAMLAuth.generate_saml_config`: a `'security'` sub-dict plus the remaining
entries, which this module never touches. -/
structure SamlConfig where
  security : List (String × PyValue)
  rest : List (String × PyValue)
  deriving DecidableEq, Repr

/-- `TurkuADFS.generate_saml_config` (turku.py lines 28-33) applied to the
superclass result `ret`: `ret['security']['wantAssertionsSigned'] = True,`
(the trailing comma makes the assigned value the one-element tuple
`(True,)`), then `ret['security']['wantNameId'] = False`. -/
def generate_saml_config (ret : SamlConfig) : SamlConfig :=
  let ret1 : SamlConfig :=
    { ret with security := dictSet ret.security ("wantAssertionsSigned") (.tuple [.bool true]) }
  let ret2 : SamlConfig :=
    { ret1 with security := dictSet ret1.security ("wantNameId") (.scalar (.bool false)) }
  ret2

/-- The "safely extracted identifier" of an attribute value, phrased from
the specification's description of the extraction: the value itself when it
is a non-empty string, the first element of a list when that element is a
non-empty string, and nothing otherwise.  Used to compare `get_user_id`
against the spec's characterization. -/
def extractedNonEmptyStr : PyValue → Option String
  | .scalar (.str s) => if s = "" then Option.none else some s
  | .list (.str s :: _) => if s = "" then Option.none else some s
  | _ => Option.none

/-- A parser stand-in whose certificates are valid from time 0 on (expiry
far in the future). -/
def alwaysValidParse : String → Certificate :=
  fun _ => { not_valid_before := 0, not_valid_after := 1000000000 }

/-- A parser stand-in whose certificates expired at time 500. -/
def expiredParse : String → Certificate :=
  fun _ => { not_valid_before := 0, not_valid_after := 500 }

/-- A one-certificate remote metadata document used as concrete input. -/
def turkuDemoDoc : IdpConfigDoc :=
  { idp := { entityId := "e", ssoUrl := "u", signing := [("CERT1")], encryption := [] } }

/-- The cache entry written by the first demo call to `remote_metadata`
(fetch at time 0, expiry 86400). -/
def c4Entry1 : CacheEntry := { value := turkuDemoDoc, fetchedAt := 0, expiry := 86400 }

/-- The cache entry after the second demo call (hit at time 80000: same
document, same fetch time, expiry pushed to 166400). -/
def c4Entry2 : CacheEntry := { value := turkuDemoDoc, fetchedAt := 0, expiry := 166400 }

/-- The full result of the first demo call to `remote_metadata`. -/
def c4Result1Record : RemoteMetadataResult :=
  { out := { entity_id := "e", url := "u",
             x509certMulti := { signing := [("CERT1")], encryption := [] } },
    contactedRemote := true,
    servedFetchedAt := 0,
    newState := [(turku_cache_key, c4Entry1)] }

theorem dictGet_dictSet_self {α : Type} (d : List (String × α)) (k : String) (v : α) :
    dictGet (dictSet d k v) k = some v := by
  induction d with
  | nil => simp [dictGet, dictSet]
  | cons hd tl ih =>
      obtain ⟨k', v'⟩ := hd
      by_cases h : k' = k <;> simp [dictGet, dictSet, h, ih]

theorem dictGet_dictSet_ne {α : Type} (d : List (String × α)) (k k2 : String) (v : α)
    (h : k ≠ k2) : dictGet (dictSet d k v) k2 = dictGet d k2 := by
  induction d with
  | nil => simp [dictGet, dictSet, h]
  | cons hd tl ih =>
      obtain ⟨k', v'⟩ := hd
      by_cases h' : k' = k
      · subst h'
        simp [dictGet, dictSet, h]
      · by_cases h2 : k' = k2 <;> simp [dictGet, dictSet, h', h2, Ne.symm h, ih]

theorem findValidCertificatesLoop_some_ok (parse : String → Certificate) (now : Int)
    (certs : List String) : ∀ acc : List String,
    ∃ l, findValidCertificatesLoop (some parse) now certs acc = Except.ok l := by
  induction certs with
  | nil => exact fun acc => ⟨acc, rfl⟩
  | cons c rest ih =>
      intro acc
      unfold findValidCertificatesLoop
      by_cases h : now < (parse c).not_valid_before <;> simp [h] <;> apply ih

theorem get_idp_ok_conf (enabled_idps : List (String × List (String × PyValue)))
    (remote_md : Except PyError (List (String × PyValue)))
    (idp_name : Option String) (p : SAMLIdentityProvider)
    (h : get_idp enabled_idps remote_md idp_name = Except.ok p) :
    ∃ cfg, p.conf = applyAttrDefaults cfg := by
  unfold get_idp at h
  split at h
  · exact Except.noConfusion h
  · split at h
    · exact Except.noConfusion h
    · simp at h
      exact ⟨_, congrArg SAMLIdentityProvider.conf h.symm⟩

theorem applyAttrDefaults_fixed (cfg : List (String × PyValue)) :
    dictGet (applyAttrDefaults cfg) ("attr_user_permanent_id") =
      some (PyValue.scalar (.str attr_user_permanent_id_uri)) ∧
    dictGet (applyAttrDefaults cfg) ("attr_email") =
      some (PyValue.scalar (.str attr_email_uri)) ∧
    dictGet (applyAttrDefaults cfg) ("attr_full_name") =
      some (PyValue.scalar (.str attr_full_name_uri)) ∧
    dictGet (applyAttrDefaults cfg) ("attr_first_name") =
      some (PyValue.scalar (.str attr_first_name_uri)) ∧
    dictGet (applyAttrDefaults cfg) ("attr_last_name") =
      some (PyValue.scalar (.str attr_last_name_uri)) := by
  unfold applyAttrDefaults
  refine ⟨?_, ?_, ?_, ?_, ?_⟩ <;>
    simp [dictGet_dictSet_self, dictGet_dictSet_ne, String.ext_iff]

/-- C8: with the module's actual (absent) binding for
`load_pem_x509_certificate`, `find_valid_certificates` evaluates to a
`NameError` on every metadata mapping with a non-empty signing list - the
name lookup fails on the first loop iteration, before any certificate is
appended, so the success path is unreachable whenever a signing
certificate is present. -/
theorem find_valid_certificates_raises_name_error (now : Int) (idp : IdpXml)
    (h : idp.signing ≠ []) :
    find_valid_certificates moduleScopeLoadPemX509Certificate now idp =
      Except.error (PyError.nameError ("load_pem_x509_certificate")) := by
  unfold find_valid_certificates
  cases hs : idp.signing with
  | nil => exact absurd hs h
  | cons c rest => simp [findValidCertificatesLoop, moduleScopeLoadPemX509Certificate]

theorem find_valid_certificates_raises_name_error_witness :
    (({ entityId := ("e"), ssoUrl := ("u"), signing := [("A")], encryption := [] } : IdpXml).signing ≠ []) ∧
    find_valid_certificates moduleScopeLoadPemX509Certificate 0
      { entityId := ("e"), ssoUrl := ("u"), signing := [("A")], encryption := [] } =
      Except.error (PyError.nameError ("load_pem_x509_certificate")) :=
  ⟨by simp, find_valid_certificates_raises_name_error 0 _ (by simp)⟩

/-- C1: evaluation of `find_valid_certificates` at a failing input.  With
the module's actual binding the call raises `NameError` instead of
filtering; and even with the external parser resolved, a certificate whose
`not_valid_after` lies strictly before `now` (an expired certificate) is
kept, because only `not_valid_before` is ever checked.  Both contradict
the claim that exactly the non-expired certificates are retained. -/
theorem find_valid_certificates_failing_input_eval :
    find_valid_certificates moduleScopeLoadPemX509Certificate 1000
      { entityId := ("e"), ssoUrl := ("u"), signing := [("OLD")], encryption := [] } =
      Except.error (PyError.nameError ("load_pem_x509_certificate")) ∧
    find_valid_certificates (some expiredParse) 1000
      { entityId := ("e"), ssoUrl := ("u"), signing := [("OLD")], encryption := [] } =
      Except.ok ({ signing := [("OLD")], encryption := [] },
        { entityId := ("e"), ssoUrl := ("u"), signing := [("OLD")], encryption := [] }) ∧
    (expiredParse ("OLD")).not_valid_after < 1000 := by
  refine ⟨rfl, ?_, by norm_num [expiredParse]⟩
  rfl

/-- C2: counterexample - when the metadata holds no signing certificate at
all, the failure raised by `find_valid_certificates` is a bare
`Exception`, which is not a `FriendlySocialAuthException`. -/
theorem no_cert_error_is_raw_exception :
    find_valid_certificates (some alwaysValidParse) 0
      { entityId := ("e"), ssoUrl := ("u"), signing := [], encryption := [] } =
      Except.error (PyError.exception ("No valid X.509 certificates found in SAML2 metadata")) ∧
    isFriendly (PyError.exception ("No valid X.509 certificates found in SAML2 metadata")) = false :=
  ⟨rfl, rfl⟩

/-- C2 (amended): when the fetched metadata contains no valid signing
certificate, the failure is raised as a plain
`Exception('No valid X.509 certificates found in SAML2 metadata')`, not as
a `FriendlySocialAuthException`; of this module's failures only the
missing-OID case (`NoAssociatedOID`) is friendly. -/
theorem no_cert_failure_not_friendly (parse : String → Certificate) (now : Int)
    (idp : IdpXml) (e : PyError)
    (h : find_valid_certificates (some parse) now idp = Except.error e) :
    e = PyError.exception ("No valid X.509 certificates found in SAML2 metadata") ∧
    isFriendly e = false ∧
    isFriendly PyError.noAssociatedOID = true := by
  unfold find_valid_certificates at h
  obtain ⟨l, hl⟩ := findValidCertificatesLoop_some_ok parse now idp.signing []
  rw [hl] at h
  by_cases he : l.isEmpty <;> simp [he] at h
  refine ⟨h.symm, ?_, rfl⟩
  rw [← h]
  exact rfl

theorem no_cert_failure_not_friendly_witness :
    PyError.exception ("No valid X.509 certificates found in SAML2 metadata") =
      PyError.exception ("No valid X.509 certificates found in SAML2 metadata") ∧
    isFriendly (PyError.exception ("No valid X.509 certificates found in SAML2 metadata")) = false ∧
    isFriendly PyError.noAssociatedOID = true :=
  no_cert_failure_not_friendly alwaysValidParse 0
    { entityId := ("e"), ssoUrl := ("u"), signing := [], encryption := [] } _ rfl

/-- C3: counterexample - when the attributes map the permanent-identifier
claim URI to an empty list (a value that is certainly not a non-empty
string), `get_user_id` raises `IndexError`, not the graceful
`NoAssociatedOID` the claim requires for every missing-identifier shape. -/
theorem get_user_id_empty_list_not_graceful :
    get_user_id [(attr_user_permanent_id_uri, PyValue.list [])] =
      Except.error PyError.indexError ∧
    PyError.indexError ≠ PyError.noAssociatedOID :=
  ⟨rfl, by decide⟩

/-- C3 (amended): `get_user_id` raises `NoAssociatedOID` if and only if the
extracted permanent-identifier value is missing, empty or not a string -
except that an attribute value which is an empty list raises `IndexError`
from `uid[0]` instead; in every remaining case the non-empty string is
returned. -/
theorem get_user_id_characterized (attrs : List (String × PyValue)) :
    get_user_id attrs =
      (match rawUid attrs with
       | PyValue.list [] => Except.error PyError.indexError
       | v =>
           match extractedNonEmptyStr v with
           | some s => Except.ok s
           | Option.none => Except.error PyError.noAssociatedOID) := by
  unfold get_user_id
  cases hv : rawUid attrs with
  | scalar a =>
      cases a with
      | str s =>
          by_cases hs : s = "" <;>
            simp [uidUnwrap, uidCheck, extractedNonEmptyStr, hs]
      | none => simp [uidUnwrap, uidCheck, extractedNonEmptyStr]
      | bool b => simp [uidUnwrap, uidCheck, extractedNonEmptyStr]
      | int n => simp [uidUnwrap, uidCheck, extractedNonEmptyStr]
  | list xs =>
      cases xs with
      | nil => simp [uidUnwrap]
      | cons x t =>
          cases x with
          | str s =>
              by_cases hs : s = "" <;>
                simp [uidUnwrap, uidCheck, extractedNonEmptyStr, hs]
          | none => simp [uidUnwrap, uidCheck, extractedNonEmptyStr]
          | bool b => simp [uidUnwrap, uidCheck, extractedNonEmptyStr]
          | int n => simp [uidUnwrap, uidCheck, extractedNonEmptyStr]
  | tuple xs => simp [uidUnwrap, uidCheck, extractedNonEmptyStr]

/-- C9: an assertion whose attributes map the permanent-identifier claim
URI to an empty list makes `get_user_id` raise `IndexError` (from
`uid[0]`), not `NoAssociatedOID`. -/
theorem get_user_id_empty_list_index_error (attrs : List (String × PyValue))
    (h : dictGet attrs attr_user_permanent_id_uri = some (PyValue.list [])) :
    get_user_id attrs = Except.error PyError.indexError ∧
    Except.error (ε := PyError) (α := String) PyError.indexError ≠
      Except.error PyError.noAssociatedOID := by
  refine ⟨?_, by simp⟩
  unfold get_user_id rawUid
  rw [h]
  rfl

theorem get_user_id_empty_list_index_error_witness :
    dictGet [(attr_user_permanent_id_uri, PyValue.list [])] attr_user_permanent_id_uri =
      some (PyValue.list []) ∧
    get_user_id [(attr_user_permanent_id_uri, PyValue.list [])] =
      Except.error PyError.indexError :=
  ⟨by simp [dictGet],
   (get_user_id_empty_list_index_error [(attr_user_permanent_id_uri, PyValue.list [])]
     (by simp [dictGet])).1⟩

/-- C5: when the attributes map the permanent-identifier claim URI to a
non-empty string, or to a list whose first element is a non-empty string,
`get_user_id` returns that string unchanged - in particular without the
`'turku_adfs:'` prefix, since prepending the prefix would change the
string. -/
theorem get_user_id_returns_uid_unprefixed (attrs : List (String × PyValue))
    (s : String) (t : List PyScalar) (h : s ≠ "") :
    (dictGet attrs attr_user_permanent_id_uri = some (PyValue.scalar (.str s)) →
      get_user_id attrs = Except.ok s) ∧
    (dictGet attrs attr_user_permanent_id_uri = some (PyValue.list (.str s :: t)) →
      get_user_id attrs = Except.ok s) ∧
    (turku_adfs_name ++ (":") ++ s ≠ s) := by
  refine ⟨?_, ?_, ?_⟩
  · intro hg
    unfold get_user_id rawUid
    rw [hg]
    simp [uidUnwrap, uidCheck, h]
  · intro hg
    unfold get_user_id rawUid
    rw [hg]
    simp [uidUnwrap, uidCheck, h]
  · intro hc
    have hlen := congrArg String.length hc
    simp [String.length_append, turku_adfs_name] at hlen
    exact absurd hlen (by decide)

theorem get_user_id_returns_uid_unprefixed_witness :
    (("user123" : String) ≠ "") ∧
    get_user_id [(attr_user_permanent_id_uri, PyValue.scalar (.str ("user123")))] =
      Except.ok ("user123") ∧
    get_user_id [(attr_user_permanent_id_uri, PyValue.list [.str ("user123")])] =
      Except.ok ("user123") :=
  ⟨by decide,
   (get_user_id_returns_uid_unprefixed _ ("user123") [] (by decide)).1 (by simp [dictGet]),
   (get_user_id_returns_uid_unprefixed _ ("user123") [] (by decide)).2.1 (by simp [dictGet])⟩

/-- C4: counterexample - a trace of three `remote_metadata` evaluations
(times 0, 80000 and 100000).  The first fetches remotely and caches with
expiry 86400; the second is a cache hit yet re-stores the entry with a
fresh 24-hour timeout (expiry 166400); the third is therefore still a
cache hit at time 100000 and serves the copy fetched at time 0 - more than
24 hours (86400 s) after it was fetched from the remote endpoint. -/
theorem remote_metadata_served_stale_copy :
    (remote_metadata (some alwaysValidParse) 0 turkuDemoDoc []).map
      RemoteMetadataResult.newState = Except.ok [(turku_cache_key, c4Entry1)] ∧
    (remote_metadata (some alwaysValidParse) 80000 turkuDemoDoc
        [(turku_cache_key, c4Entry1)]).map
      RemoteMetadataResult.newState = Except.ok [(turku_cache_key, c4Entry2)] ∧
    (remote_metadata (some alwaysValidParse) 100000 turkuDemoDoc
        [(turku_cache_key, c4Entry2)]).map
      (fun r => (r.contactedRemote, r.servedFetchedAt)) = Except.ok (false, 0) ∧
    (100000 : Int) > 0 + 24 * 3600 := by
  refine ⟨rfl, rfl, rfl, by norm_num⟩

/-- C4 (amended): `remote_metadata` contacts the remote endpoint exactly
when the cache holds no unexpired entry for the backend's key, and on
every successful evaluation - cache hit or miss - re-stores the metadata
under that key with a fresh 24-hour (86400 s) timeout; on a hit it serves
the previously fetched copy, so the expiry slides and a cached copy may
still be served more than 24 hours after it was fetched. -/
theorem remote_metadata_cache_discipline (loadPem : Option (String → Certificate))
    (now : Int) (remoteDoc : IdpConfigDoc) (st : CacheState) (r : RemoteMetadataResult)
    (h : remote_metadata loadPem now remoteDoc st = Except.ok r) :
    (r.contactedRemote = true ↔ cache_get st turku_cache_key now = Option.none) ∧
    ((dictGet r.newState turku_cache_key).map CacheEntry.expiry =
      some (now + 24 * 3600)) ∧
    (∀ e0, cache_get st turku_cache_key now = some e0 →
      r.contactedRemote = false ∧ r.servedFetchedAt = e0.fetchedAt) ∧
    (cache_get st turku_cache_key now = Option.none → r.servedFetchedAt = now) := by
  cases hc : cache_get st turku_cache_key now with
  | none =>
      simp only [remote_metadata, cache_set, hc] at h
      cases hf : find_valid_certificates loadPem now remoteDoc.idp with
      | error e => rw [hf] at h; exact Except.noConfusion h
      | ok pr =>
          obtain ⟨cm, idp2⟩ := pr
          rw [hf] at h
          simp at h
          rw [← h]
          refine ⟨by simp, ?_, ?_, fun _ => rfl⟩
          · simp [dictGet_dictSet_self]
          · intro e0 he0
            exact absurd he0 (by simp)
  | some e1 =>
      simp only [remote_metadata, cache_set, hc] at h
      cases hf : find_valid_certificates loadPem now e1.value.idp with
      | error e => rw [hf] at h; exact Except.noConfusion h
      | ok pr =>
          obtain ⟨cm, idp2⟩ := pr
          rw [hf] at h
          simp at h
          rw [← h]
          refine ⟨by simp, ?_, ?_, ?_⟩
          · simp [dictGet_dictSet_self]
          · intro e0 he0
            have : e1 = e0 := by injection he0
            subst this
            exact ⟨rfl, rfl⟩
          · intro hn
            exact absurd hn (by simp)

theorem remote_metadata_cache_discipline_witness :
    (c4Result1Record.contactedRemote = true ↔
      cache_get [] turku_cache_key 0 = Option.none) ∧
    ((dictGet c4Result1Record.newState turku_cache_key).map CacheEntry.expiry =
      some ((0 : Int) + 24 * 3600)) ∧
    (∀ e0, cache_get [] turku_cache_key 0 = some e0 →
      c4Result1Record.contactedRemote = false ∧
      c4Result1Record.servedFetchedAt = e0.fetchedAt) ∧
    (cache_get [] turku_cache_key 0 = Option.none →
      c4Result1Record.servedFetchedAt = 0) :=
  remote_metadata_cache_discipline (some alwaysValidParse) 0 turkuDemoDoc [] c4Result1Record rfl

/-- C6: the adapter supports exactly one identity provider - `get_idp`
raises `Exception('Only IDP name allowed is turku_adfs')` for every name
other than `None` or `'turku_adfs'`, treats `None` exactly as
`'turku_adfs'`, and `get_allowed_idp_name` answers `'turku_adfs'` for
every request. -/
theorem single_provider_only (enabled_idps : List (String × List (String × PyValue)))
    (remote_md : Except PyError (List (String × PyValue)))
    (n : String) (h : n ≠ turku_adfs_name) {Request : Type} (r : Request) :
    get_idp enabled_idps remote_md (some n) =
      Except.error (PyError.exception ("Only IDP name allowed is turku_adfs")) ∧
    get_idp enabled_idps remote_md Option.none =
      get_idp enabled_idps remote_md (some turku_adfs_name) ∧
    get_allowed_idp_name r = turku_adfs_name := by
  refine ⟨?_, ?_, rfl⟩
  · simp [get_idp, resolveIdpName, h]
  · simp [get_idp, resolveIdpName]

theorem single_provider_only_witness :
    (("someone_else" : String) ≠ turku_adfs_name) ∧
    (get_idp [] (Except.ok []) (some ("someone_else")) =
      Except.error (PyError.exception ("Only IDP name allowed is turku_adfs")) ∧
    get_idp [] (Except.ok []) Option.none =
      get_idp [] (Except.ok []) (some turku_adfs_name) ∧
    get_allowed_idp_name (0 : Nat) = turku_adfs_name) :=
  ⟨by decide, single_provider_only [] (Except.ok []) ("someone_else") (by decide) (0 : Nat)⟩

/-- C7: every identity provider configuration that `get_idp` returns has
all five profile-attribute claim URIs set to the fixed ADFS values,
whatever configuration the settings or the remote metadata supplied - the
five assignments override any previous values. -/
theorem get_idp_sets_fixed_claim_uris (enabled_idps : List (String × List (String × PyValue)))
    (remote_md : Except PyError (List (String × PyValue)))
    (idp_name : Option String) (p : SAMLIdentityProvider)
    (h : get_idp enabled_idps remote_md idp_name = Except.ok p) :
    dictGet p.conf ("attr_user_permanent_id") =
      some (PyValue.scalar (.str attr_user_permanent_id_uri)) ∧
    dictGet p.conf ("attr_email") = some (PyValue.scalar (.str attr_email_uri)) ∧
    dictGet p.conf ("attr_full_name") = some (PyValue.scalar (.str attr_full_name_uri)) ∧
    dictGet p.conf ("attr_first_name") = some (PyValue.scalar (.str attr_first_name_uri)) ∧
    dictGet p.conf ("attr_last_name") = some (PyValue.scalar (.str attr_last_name_uri)) := by
  obtain ⟨cfg, hcfg⟩ := get_idp_ok_conf enabled_idps remote_md idp_name p h
  rw [hcfg]
  exact applyAttrDefaults_fixed cfg

theorem get_idp_sets_fixed_claim_uris_witness :
    dictGet (applyAttrDefaults []) ("attr_user_permanent_id") =
      some (PyValue.scalar (.str attr_user_permanent_id_uri)) ∧
    dictGet (applyAttrDefaults []) ("attr_email") =
      some (PyValue.scalar (.str attr_email_uri)) ∧
    dictGet (applyAttrDefaults []) ("attr_full_name") =
      some (PyValue.scalar (.str attr_full_name_uri)) ∧
    dictGet (applyAttrDefaults []) ("attr_first_name") =
      some (PyValue.scalar (.str attr_first_name_uri)) ∧
    dictGet (applyAttrDefaults []) ("attr_last_name") =
      some (PyValue.scalar (.str attr_last_name_uri)) :=
  get_idp_sets_fixed_claim_uris [] (Except.ok []) Option.none
    { name := turku_adfs_name, conf := applyAttrDefaults [] } rfl

/-- C10: `generate_saml_config` returns the superclass-produced
configuration with `security['wantNameId']` set to the boolean `False` and
`security['wantAssertionsSigned']` set to the one-element tuple `(True,)` -
a truthy value that is not the boolean `True` - and leaves every other
entry, of the security dict and of the outer configuration, unchanged. -/
theorem generate_saml_config_security_flags (ret : SamlConfig) :
    (generate_saml_config ret).rest = ret.rest ∧
    dictGet (generate_saml_config ret).security ("wantNameId") =
      some (PyValue.scalar (.bool false)) ∧
    dictGet (generate_saml_config ret).security ("wantAssertionsSigned") =
      some (PyValue.tuple [.bool true]) ∧
    PyValue.tuple [.bool true] ≠ PyValue.scalar (.bool true) ∧
    pyTruthy (PyValue.tuple [.bool true]) = true ∧
    (∀ k : String, k ≠ "wantNameId" → k ≠ "wantAssertionsSigned" →
      dictGet (generate_saml_config ret).security k = dictGet ret.security k) := by
  refine ⟨rfl, ?_, ?_, by decide, rfl, ?_⟩
  · simp [generate_saml_config, dictGet_dictSet_self]
  · simp [generate_saml_config]
    rw [dictGet_dictSet_ne _ _ _ _ (by decide)]
    exact dictGet_dictSet_self _ _ _
  · intro k hk1 hk2
    simp [generate_saml_config]
    rw [dictGet_dictSet_ne _ _ _ _ (Ne.symm hk1), dictGet_dictSet_ne _ _ _ _ (Ne.symm hk2)]

theorem generate_saml_config_security_flags_witness :
    (("idp" : String) ≠ "wantNameId") ∧ (("idp" : String) ≠ "wantAssertionsSigned") ∧
    dictGet (generate_saml_config
        { security := [(("idp"), PyValue.scalar .none)], rest := [] }).security ("idp") =
      dictGet [(("idp"), PyValue.scalar (PyScalar.none))] ("idp") :=
  ⟨by decide, by decide,
   (generate_saml_config_security_flags
       { security := [(("idp"), PyValue.scalar .none)], rest := [] }).2.2.2.2.2
     ("idp") (by decide) (by decide)⟩

end TurkuAdfs
